import Mathlib

/-!
Shallow embedding of the rendering core of the Engine repository
(src/Renderer.cc, src/Shader.cc, src/TexturedMaterial.h, src/Renderer.h),
together with theorems settling the spec's claims about it.

Modelling conventions:
* `glm::vec3` components are modelled as rationals (`ℚ`); the claims under
  study only involve exact arithmetic (vector add/sub and scalar multiply),
  never rounding behaviour.
* A `Shader::set_*` call succeeds iff the named uniform has a location in the
  compiled program (`Shader::get_uniform_location` in Shader.cc); whether it
  does is fixed for a given shader program and uniform name. We model this
  with an environment `GlEnv : ShaderId → Uniform → Bool` consulted by every
  fallible uniform-set. Uniform names are enumerated (dots in names such as
  `u_point_light.position` become underscores); the value passed never affects
  success, so values that flow only into uniforms are not threaded.
* GPU side effects (draw calls, framebuffer binds, texture reads) are recorded
  as a trace of `RenderOp`s in program order; `Renderer::render` returns its
  success flag, the post-call renderer state, and the trace accumulated up to
  the point it returned.
* The `camera_view`/`skybox_view` matrix arguments of `render` flow only into
  uniform values and never into control flow, so they are elided. The
  light-space view-projection matrix (Renderer.cc lines 459-579) is observable
  through the trace: `glm::ortho`/`glm::lookAt` are external glm library calls,
  so the matrix is represented by the exact eye/target parameters the code
  computes and passes to them (`LightMatrix.viewProjection`), or by
  `LightMatrix.identity` for the `glm::mat4(1.0f)` branch.
* `Renderer.h` in the repository is stale with respect to Renderer.cc: it lacks
  the `Terrain` struct, the `terrain`/`terrain_shader` members, `set_terrain`,
  and the `normal_map` member of `RegularObject`, all of which Renderer.cc
  uses. Those shapes are modelled from their usage in Renderer.cc (and
  spec section 3): `Terrain` is { material, normal_map, drawable } and
  `RegularObject` additionally carries `normal_map`.
* Drawables are opaque handles (`Drawable::draw()` takes no fallible step);
  they are modelled by a numeric identity so traces can name what was drawn.
  Textures are modelled by their texture-unit slot (`get_slot`).
-/

namespace Engine

/-- Component-exact model of `glm::vec3`. -/
structure Vec3 where
  x : ℚ
  y : ℚ
  z : ℚ
deriving DecidableEq, Repr

/-- The zero vector, `glm::vec3(0.0f)`. -/
def Vec3.zero : Vec3 := ⟨0, 0, 0⟩

instance : Add Vec3 := ⟨fun a b => ⟨a.x + b.x, a.y + b.y, a.z + b.z⟩⟩

instance : Sub Vec3 := ⟨fun a b => ⟨a.x - b.x, a.y - b.y, a.z - b.z⟩⟩

/-- Componentwise `vec3 * scalar` as used at Renderer.cc lines 515-520. -/
def Vec3.scale (v : Vec3) (c : ℚ) : Vec3 := ⟨v.x * c, v.y * c, v.z * c⟩

/-- The shader programs the renderer owns (Renderer.h members compiled in
`Renderer::init`). -/
inductive ShaderId
  | screen
  | gaussian_blur
  | skybox
  | regular_object
  | point_light
  | depth
  | debug
  | terrain
deriving DecidableEq, Repr

/-- The uniform names set through fallible `Shader::set_*` calls in
Renderer.cc and TexturedMaterial.h. A dot in the C++ name is rendered as an
underscore (for example `u_point_light.position` is `u_point_light_position`). -/
inductive Uniform
  | u_exposure
  | u_gamma
  | u_sharpness
  | u_color_texture_sampler
  | u_bloom_texture_sampler
  | u_texture_sampler
  | u_projection
  | u_model
  | u_view
  | u_light_view_projection
  | u_camera_position
  | u_horizontal
  | u_sun_color
  | u_sun_position
  | u_sun_angular_radius
  | u_normal_map_sampler
  | u_shadow_map_sampler
  | u_color
  | u_point_light_position
  | u_point_light_ambient
  | u_point_light_diffuse
  | u_point_light_specular
  | u_directional_light_direction
  | u_directional_light_ambient
  | u_directional_light_diffuse
  | u_directional_light_specular
  | u_material_ambient
  | u_material_diffuse
  | u_material_specular
  | u_material_shininess
deriving DecidableEq, Repr

/-- Whether a `Shader::set_*` call on the given program for the given uniform
name succeeds. Per Shader.cc `get_uniform_location`, success is a fixed
function of (program, uniform name): the location either exists or is `-1`. -/
def GlEnv : Type := ShaderId → Uniform → Bool

/-- Model of `TexturedMaterial` (TexturedMaterial.h): color triples, shininess
and the texture-unit slot of the associated color texture. -/
structure TexturedMaterial where
  ambient : Vec3
  diffuse : Vec3
  specular : Vec3
  shininess : ℚ
  slot : Nat
deriving DecidableEq, Repr

/-- Model of `TexturedMaterial::apply` (TexturedMaterial.h lines 28-38):
`Texture::use()` (infallible bind), then four uniform sets, each returning
false on failure before the later ones run. -/
def TexturedMaterial.apply (_m : TexturedMaterial) (sh : ShaderId) (env : GlEnv) : Bool :=
  env sh .u_material_ambient && env sh .u_material_diffuse &&
    env sh .u_material_specular && env sh .u_material_shininess

/-- Model of `Renderer::Transform` (Renderer.h). -/
structure Transform where
  position : Vec3
  rotation : Vec3
  scale : Vec3
deriving DecidableEq, Repr

/-- Model of `Renderer::TranslateTransform` (Renderer.h). -/
structure TranslateTransform where
  position : Vec3
deriving DecidableEq, Repr

/-- Model of `Renderer::RegularObject`: material, transform, drawable, plus
the `normal_map` member used at Renderer.cc line 671 (absent from the stale
Renderer.h copy; the normal map is modelled by its slot). The drawable is an
opaque handle named by a number. -/
structure RegularObject where
  material : TexturedMaterial
  transform : Transform
  drawable : Nat
  normal_map : Nat
deriving DecidableEq, Repr

/-- Model of `Renderer::PointLightObject` (Renderer.h). -/
structure PointLightObject where
  color : Vec3
  transform : Transform
  drawable : Nat
deriving DecidableEq, Repr

/-- Model of `Renderer::DirectionalLightObject` (Renderer.h). -/
structure DirectionalLightObject where
  direction : Vec3
  color : Vec3
deriving DecidableEq, Repr

/-- Model of `Renderer::DebugObject` (Renderer.h). -/
structure DebugObject where
  transform : TranslateTransform
  color : Vec3
  drawable : Nat
deriving DecidableEq, Repr

/-- Model of the `Terrain` entry used by `Renderer::set_terrain` and the
shadow/scene passes: shaped from its usage in Renderer.cc (`_terrain.material`,
`_terrain.normal_map.get_slot()`, `terrain->drawable.draw()`) and spec
section 3 ({ material, normal-map texture, drawable }); its declaration is not
in the repository's Renderer.h copy. -/
structure Terrain where
  material : TexturedMaterial
  normal_map : Nat
  drawable : Nat
deriving DecidableEq, Repr

/-- The light-space view-projection matrix of the shadow pass. The else branch
of Renderer.cc line 578 is `glm::mat4(1.0f)` (identity); the then branch is
`glm::ortho(...fixed constants...) * glm::lookAt(light_position, light_target,
up)` (lines 522-541), represented by the eye/target pair passed to the external
glm calls. -/
inductive LightMatrix
  | identity
  | viewProjection (light_position : Vec3) (light_target : Vec3)
deriving DecidableEq, Repr

/-- Observable GPU actions of one `Renderer::render` call, in program order. -/
inductive RenderOp
  | setLightMatrix (m : LightMatrix)
  | depthDrawRegular (drawable : Nat)
  | depthDrawTerrain (drawable : Nat)
  | drawDebug (drawable : Nat)
  | drawRegular (drawable : Nat)
  | drawTerrain (drawable : Nat)
  | drawPointLight (drawable : Nat)
  | drawSkybox
  | blurBindWrite (target : Nat)
  | blurReadBloom
  | blurReadPingPong (target : Nat)
  | blurDrawQuad
  | compositeReadPingPong (target : Nat)
  | compositeDrawQuad
deriving DecidableEq, Repr

/-- Mutable renderer state relevant to the claims: the tone-mapping scalars
(initialized in the constructor at Renderer.cc line 59), the four per-frame
submission queues and the persistent terrain entry. -/
structure Renderer where
  exposure : ℚ
  gamma : ℚ
  sharpness : ℚ
  regular_objects : List RegularObject
  point_light_objects : List PointLightObject
  directional_light_objects : List DirectionalLightObject
  debug_objects : List DebugObject
  terrain : Option Terrain
deriving DecidableEq, Repr

/-- State after the constructor `Renderer::Renderer()` (Renderer.cc line 59):
exposure 1.0, gamma 0.5 (written `mkRat 1 2` so that it evaluates under
kernel reduction), sharpness 1.0, everything else empty. -/
def Renderer.initial : Renderer :=
  { exposure := 1, gamma := mkRat 1 2, sharpness := 1,
    regular_objects := [], point_light_objects := [],
    directional_light_objects := [], debug_objects := [], terrain := none }

/-- `Renderer::add_regular_object`: `push_back`. -/
def Renderer.add_regular_object (s : Renderer) (o : RegularObject) : Renderer :=
  { s with regular_objects := s.regular_objects ++ [o] }

/-- `Renderer::add_point_light_object`: `push_back`. -/
def Renderer.add_point_light_object (s : Renderer) (o : PointLightObject) : Renderer :=
  { s with point_light_objects := s.point_light_objects ++ [o] }

/-- `Renderer::add_directional_light_object`: `push_back`. -/
def Renderer.add_directional_light_object (s : Renderer) (o : DirectionalLightObject) :
    Renderer :=
  { s with directional_light_objects := s.directional_light_objects ++ [o] }

/-- `Renderer::add_debug_object`: `push_back`. -/
def Renderer.add_debug_object (s : Renderer) (o : DebugObject) : Renderer :=
  { s with debug_objects := s.debug_objects ++ [o] }

/-- `Renderer::set_terrain` (Renderer.cc lines 383-397): apply the terrain
material to the terrain shader, set the normal-map and shadow-map samplers -
each failure returns false immediately - and only then replace the stored
terrain entry. Returns the success flag and the resulting state. -/
def Renderer.set_terrain (s : Renderer) (env : GlEnv) (t : Terrain) :
    Bool × Renderer :=
  if t.material.apply .terrain env then
    if env .terrain .u_normal_map_sampler then
      if env .terrain .u_shadow_map_sampler then
        (true, { s with terrain := some t })
      else (false, s)
    else (false, s)
  else (false, s)

/-- `Renderer::set_exposure` (Renderer.cc lines 827-833): store the new value
into the member first, then attempt the uniform update; a failed update
returns false with the member already overwritten. -/
def Renderer.set_exposure (s : Renderer) (env : GlEnv) (v : ℚ) : Bool × Renderer :=
  let s2 := { s with exposure := v }
  (env .screen .u_exposure, s2)

/-- `Renderer::set_gamma` (Renderer.cc lines 840-846), same shape as
`set_exposure`. -/
def Renderer.set_gamma (s : Renderer) (env : GlEnv) (v : ℚ) : Bool × Renderer :=
  let s2 := { s with gamma := v }
  (env .screen .u_gamma, s2)

/-- `Renderer::set_sharpness` (Renderer.cc lines 855-861), same shape as
`set_exposure`. -/
def Renderer.set_sharpness (s : Renderer) (env : GlEnv) (v : ℚ) : Bool × Renderer :=
  let s2 := { s with sharpness := v }
  (env .screen .u_sharpness, s2)

/-- `Renderer::get_exposure` (Renderer.cc line 866). -/
def Renderer.get_exposure (s : Renderer) : ℚ := s.exposure

/-- `Renderer::get_gamma` (Renderer.cc line 874). -/
def Renderer.get_gamma (s : Renderer) : ℚ := s.gamma

/-- `Renderer::get_sharpness` (Renderer.cc line 882). -/
def Renderer.get_sharpness (s : Renderer) : ℚ := s.sharpness

/-- `shadow_frustrum_end` (Renderer.cc line 509). -/
def shadow_frustrum_end : ℚ := 150

/-- `shadow_render_distance_from_camera = shadow_frustrum_end / 2`
(Renderer.cc lines 511-512). -/
def shadow_render_distance_from_camera : ℚ := shadow_frustrum_end / 2

/-- `shadow_render_distance_from_light = shadow_frustrum_end / 2`
(Renderer.cc line 513). -/
def shadow_render_distance_from_light : ℚ := shadow_frustrum_end / 2

/-- `light_target = camera_position + camera_direction *
shadow_render_distance_from_camera` (Renderer.cc lines 515-516). -/
def light_target (camera_position camera_direction : Vec3) : Vec3 :=
  camera_position + camera_direction.scale shadow_render_distance_from_camera

/-- `light_position = light_target - light_direction *
shadow_render_distance_from_light` (Renderer.cc lines 518-520). -/
def light_position (lt : Vec3) (light_direction : Vec3) : Vec3 :=
  lt - light_direction.scale shadow_render_distance_from_light

/-- Depth-only draws of the regular objects into the shadow map (Renderer.cc
lines 557-562): per object, set `u_model` on the depth shader (failure returns
out of `render`), then draw. Returns the success flag and the ops emitted. -/
def depthDrawRegulars (env : GlEnv) : List RegularObject → Bool × List RenderOp
  | [] => (true, [])
  | obj :: rest =>
    if env .depth .u_model then
      let r := depthDrawRegulars env rest
      (r.1, .depthDrawRegular obj.drawable :: r.2)
    else (false, [])

/-- The depth-draw block of the shadow pass (Renderer.cc lines 547-572): set
the light-space matrix uniform on the depth shader, draw each regular object,
then - if a terrain is set - set the identity model matrix and draw it. -/
def shadowDraws (env : GlEnv) (regs : List RegularObject) (terr : Option Terrain) :
    Bool × List RenderOp :=
  if env .depth .u_light_view_projection then
    let rr := depthDrawRegulars env regs
    if rr.1 then
      match terr with
      | none => (true, rr.2)
      | some t =>
        if env .depth .u_model then (true, rr.2 ++ [.depthDrawTerrain t.drawable])
        else (false, rr.2)
    else (false, rr.2)
  else (false, [])

/-- The shadow pass (Renderer.cc lines 459-579). If the directional light's
color is nonzero: compute the frustum target and light position, form the
light-space view-projection matrix, and render the shadow map. Otherwise the
matrix is the identity and nothing is drawn. -/
def shadowPass (env : GlEnv) (dl : DirectionalLightObject)
    (regs : List RegularObject) (terr : Option Terrain)
    (camera_position camera_direction : Vec3) : Bool × List RenderOp :=
  if dl.color ≠ Vec3.zero then
    let lt := light_target camera_position camera_direction
    let lp := light_position lt dl.direction
    let m := LightMatrix.viewProjection lp lt
    let r := shadowDraws env regs terr
    (r.1, .setLightMatrix m :: r.2)
  else
    (true, [.setLightMatrix .identity])

/-- Debug-object draws (Renderer.cc lines 608-615): per object set `u_model`
and `u_color`, then draw. -/
def debugDraws (env : GlEnv) : List DebugObject → Bool × List RenderOp
  | [] => (true, [])
  | obj :: rest =>
    if env .debug .u_model then
      if env .debug .u_color then
        let r := debugDraws env rest
        (r.1, .drawDebug obj.drawable :: r.2)
      else (false, [])
    else (false, [])

/-- The debug sub-pass (Renderer.cc lines 598-616): skipped entirely when no
debug objects are queued; otherwise set `u_view` then draw each object. -/
def debugPass (env : GlEnv) (objs : List DebugObject) : Bool × List RenderOp :=
  if objs.isEmpty then (true, [])
  else if env .debug .u_view then debugDraws env objs
  else (false, [])

/-- Lit-object draws (Renderer.cc lines 665-673): per object set `u_model`
(fallible), apply the material - whose return value the source ignores at this
call site (line 670) - bind the normal map and shadow map, draw. -/
def regularDraws (env : GlEnv) : List RegularObject → Bool × List RenderOp
  | [] => (true, [])
  | obj :: rest =>
    if env .regular_object .u_model then
      let r := regularDraws env rest
      (r.1, .drawRegular obj.drawable :: r.2)
    else (false, [])

/-- The regular-object sub-pass (Renderer.cc lines 621-673): eleven fallible
camera/light uniform sets on the regular-object shader in source order, then
the per-object draws. -/
def regularPass (env : GlEnv) (objs : List RegularObject) : Bool × List RenderOp :=
  if env .regular_object .u_view && env .regular_object .u_camera_position &&
      env .regular_object .u_light_view_projection &&
      env .regular_object .u_point_light_position &&
      env .regular_object .u_point_light_ambient &&
      env .regular_object .u_point_light_diffuse &&
      env .regular_object .u_point_light_specular &&
      env .regular_object .u_directional_light_direction &&
      env .regular_object .u_directional_light_ambient &&
      env .regular_object .u_directional_light_diffuse &&
      env .regular_object .u_directional_light_specular then
    regularDraws env objs
  else (false, [])

/-- The terrain sub-pass (Renderer.cc lines 678-727): skipped when no terrain
is set; otherwise eleven fallible uniform sets on the terrain shader in source
order, then the terrain material apply - return value ignored by the source at
line 725 - and the draw. -/
def terrainPass (env : GlEnv) : Option Terrain → Bool × List RenderOp
  | none => (true, [])
  | some t =>
    if env .terrain .u_view && env .terrain .u_light_view_projection &&
        env .terrain .u_camera_position &&
        env .terrain .u_point_light_position &&
        env .terrain .u_point_light_ambient &&
        env .terrain .u_point_light_diffuse &&
        env .terrain .u_point_light_specular &&
        env .terrain .u_directional_light_direction &&
        env .terrain .u_directional_light_ambient &&
        env .terrain .u_directional_light_diffuse &&
        env .terrain .u_directional_light_specular then
      (true, [.drawTerrain t.drawable])
    else (false, [])

/-- Point-light glyph draws (Renderer.cc lines 741-747). -/
def pointLightDraws (env : GlEnv) : List PointLightObject → Bool × List RenderOp
  | [] => (true, [])
  | obj :: rest =>
    if env .point_light .u_model then
      let r := pointLightDraws env rest
      (r.1, .drawPointLight obj.drawable :: r.2)
    else (false, [])

/-- The point-light sub-pass (Renderer.cc lines 732-747): set `u_view` on the
point-light shader, then draw each queued point light. -/
def pointLightPass (env : GlEnv) (objs : List PointLightObject) :
    Bool × List RenderOp :=
  if env .point_light .u_view then pointLightDraws env objs
  else (false, [])

/-- The skybox pass (Renderer.cc lines 752-763): set `u_view` and
`u_sun_color` on the skybox shader, then draw the cube. -/
def skyboxPass (env : GlEnv) : Bool × List RenderOp :=
  if env .skybox .u_view then
    if env .skybox .u_sun_color then (true, [.drawSkybox])
    else (false, [])
  else (false, [])

/-- `passes = 10` (Renderer.cc line 770). -/
def passes : Nat := 10

/-- The gaussian-blur ping-pong loop body (Renderer.cc lines 772-795),
recursing on the remaining pass count. Each pass: bind the ping-pong
framebuffer indexed by the current `horizontal` flag as write target, set the
`u_horizontal` uniform (fallible), flip the flag with `1 ^ horizontal`, read
from the bloom texture on the first iteration or from the ping-pong texture
indexed by the flipped flag afterwards, and draw the screen quad. Returns the
success flag, the flag value at loop exit, and the ops. -/
def blurLoop (env : GlEnv) : Nat → Nat → Bool → Bool × Nat × List RenderOp
  | 0, horizontal, _ => (true, horizontal, [])
  | n + 1, horizontal, first_iteration =>
    if env .gaussian_blur .u_horizontal then
      let horizontal2 := 1 ^^^ horizontal
      let readOp : RenderOp :=
        if first_iteration then .blurReadBloom else .blurReadPingPong horizontal2
      let r := blurLoop env n horizontal2 false
      (r.1, r.2.1,
        .blurBindWrite horizontal :: readOp :: .blurDrawQuad :: r.2.2)
    else (false, horizontal, [.blurBindWrite horizontal])

/-- The bloom blur pass (Renderer.cc lines 768-795): `horizontal` starts at 1,
`first_iteration` at true, for a fixed 10 passes. -/
def blurPass (env : GlEnv) : Bool × Nat × List RenderOp :=
  blurLoop env passes 1 true

/-- The composite pass (Renderer.cc lines 801-809): bind the default
framebuffer, clear, read the ping-pong texture indexed by the flag value at
blur-loop exit, re-point the bloom sampler at it - the `set_int` return value
is ignored by the source at line 806 - bind the color texture and draw the
screen quad. No step of it can fail. -/
def compositePass (horizontal : Nat) : Bool × List RenderOp :=
  (true, [.compositeReadPingPong horizontal, .compositeDrawQuad])

/-- Sequencing of two pass results: the second runs only if the first
succeeded, and the traces concatenate (a failed first pass returns with only
its own ops emitted). -/
def passSeq (r1 r2 : Bool × List RenderOp) : Bool × List RenderOp :=
  if r1.1 then (r2.1, r1.2 ++ r2.2) else r1

/-- The pass pipeline of `Renderer::render` after the light-count checks
(Renderer.cc lines 459-809): shadow, debug, regular, terrain, point-light,
skybox, blur, composite, each aborting the frame on the first failure. -/
def renderPasses (s : Renderer) (env : GlEnv) (dl : DirectionalLightObject)
    (camera_position camera_direction : Vec3) : Bool × List RenderOp :=
  passSeq (shadowPass env dl s.regular_objects s.terrain
            camera_position camera_direction)
    (passSeq (debugPass env s.debug_objects)
      (passSeq (regularPass env s.regular_objects)
        (passSeq (terrainPass env s.terrain)
          (passSeq (pointLightPass env s.point_light_objects)
            (passSeq (skyboxPass env)
              (let b := blurPass env
               passSeq (b.1, b.2.2) (compositePass b.2.1)))))))

/-- `Renderer::render` (Renderer.cc lines 448-820). First the two light-count
assertions (lines 456-457), each returning false immediately; then the pass
pipeline, any failure of which returns false; only on the all-success path are
the four submission queues cleared (lines 814-817) before returning true. The
result is (success, post-call state, trace). -/
def Renderer.render (s : Renderer) (env : GlEnv)
    (camera_position camera_direction : Vec3) :
    Bool × Renderer × List RenderOp :=
  match s.directional_light_objects with
  | [dl] =>
    if s.point_light_objects.length = 1 then
      let r := renderPasses s env dl camera_position camera_direction
      if r.1 then
        (true,
          { s with regular_objects := [], point_light_objects := [],
                   directional_light_objects := [], debug_objects := [] },
          r.2)
      else (false, s, r.2)
    else (false, s, [])
  | _ => (false, s, [])

/-- The write targets of the blur passes, in order: the ping-pong framebuffer
indices bound as write target. -/
def blurWrites (ops : List RenderOp) : List Nat :=
  ops.filterMap fun op =>
    match op with
    | .blurBindWrite t => some t
    | _ => none

/-- The ping-pong texture indices the composite pass reads, in order. -/
def compositeReads (ops : List RenderOp) : List Nat :=
  ops.filterMap fun op =>
    match op with
    | .compositeReadPingPong t => some t
    | _ => none

/-- Depth-only draws into the shadow map contained in a trace. -/
def depthDraws (ops : List RenderOp) : List RenderOp :=
  ops.filter fun op =>
    match op with
    | .depthDrawRegular _ => true
    | .depthDrawTerrain _ => true
    | _ => false

/-- Coarse classification of a trace op, used to show which op kinds each pass
can emit: 0 = light-matrix record, 1 = shadow-map depth draw, 2 = scene or
skybox draw, 3 = blur write-target bind, 4 = other blur op, 5 = composite
ping-pong read, 6 = composite draw. -/
def opClass (op : RenderOp) : Nat :=
  match op with
  | .setLightMatrix _ => 0
  | .depthDrawRegular _ => 1
  | .depthDrawTerrain _ => 1
  | .drawDebug _ => 2
  | .drawRegular _ => 2
  | .drawTerrain _ => 2
  | .drawPointLight _ => 2
  | .drawSkybox => 2
  | .blurBindWrite _ => 3
  | .blurReadBloom => 4
  | .blurReadPingPong _ => 4
  | .blurDrawQuad => 4
  | .compositeReadPingPong _ => 5
  | .compositeDrawQuad => 6

/-!  Sample concrete inputs used by witnesses and counterexamples. -/

/-- An environment in which every uniform location resolves. -/
def envAll : GlEnv := fun _ _ => true

/-- An environment in which exactly one (program, uniform) pair fails. -/
def envFailAt (sh0 : ShaderId) (u0 : Uniform) : GlEnv := fun sh u =>
  !(decide (sh = sh0 ∧ u = u0))

/-- An environment in which the screen shader's three tone-mapping uniforms
all fail to resolve. -/
def envScreenScalarsFail : GlEnv := fun sh u =>
  match sh, u with
  | .screen, .u_exposure => false
  | .screen, .u_gamma => false
  | .screen, .u_sharpness => false
  | _, _ => true

/-- A sample material. -/
def sampleMaterial : TexturedMaterial :=
  { ambient := ⟨1, 1, 1⟩, diffuse := ⟨1, 1, 1⟩, specular := ⟨1, 1, 1⟩,
    shininess := 32, slot := 3 }

/-- A sample transform at the origin. -/
def sampleTransform : Transform :=
  { position := Vec3.zero, rotation := Vec3.zero, scale := ⟨1, 1, 1⟩ }

/-- A sample regular object. -/
def sampleRegular : RegularObject :=
  { material := sampleMaterial, transform := sampleTransform,
    drawable := 10, normal_map := 4 }

/-- A sample point light at `(150, 100, 120)` with a warm color. -/
def samplePointLight : PointLightObject :=
  { color := ⟨1, 1, 1⟩,
    transform := { position := ⟨150, 100, 120⟩, rotation := Vec3.zero,
                   scale := ⟨1, 1, 1⟩ },
    drawable := 11 }

/-- A sample directional light pointing down with a nonzero color. -/
def sampleDirLight : DirectionalLightObject :=
  { direction := ⟨0, -1, 0⟩, color := ⟨1, 1, 1⟩ }

/-- A directional light whose color is `(0, 0, 0)` (light off). -/
def dirLightOff : DirectionalLightObject :=
  { direction := ⟨0, -1, 0⟩, color := Vec3.zero }

/-- A sample terrain entry. -/
def sampleTerrain : Terrain :=
  { material := sampleMaterial, normal_map := 5, drawable := 12 }

/-- A renderer state satisfying the light invariant: exactly one directional
and one point light queued. -/
def sampleState : Renderer :=
  { Renderer.initial with
    regular_objects := [sampleRegular],
    point_light_objects := [samplePointLight],
    directional_light_objects := [sampleDirLight] }

/-- A renderer state violating the light invariant (no lights submitted) with
a regular object still queued. -/
def staleState : Renderer :=
  { Renderer.initial with regular_objects := [sampleRegular] }

/-- A renderer state whose single directional light has color `(0, 0, 0)`. -/
def offLightState : Renderer :=
  { Renderer.initial with
    point_light_objects := [samplePointLight],
    directional_light_objects := [dirLightOff] }

/-!  Helper lemmas: vector algebra. -/

theorem Vec3.add_sub_cancel_left (a b : Vec3) : a + b - a = b := by
  cases a with
  | mk ax ay az =>
    cases b with
    | mk b1 b2 b3 =>
      show Vec3.mk (ax + b1 - ax) (ay + b2 - ay) (az + b3 - az) = Vec3.mk b1 b2 b3
      rw [Vec3.mk.injEq]
      refine ⟨by ring, by ring, by ring⟩

theorem Vec3.sub_sub_cancel (a b : Vec3) : a - (a - b) = b := by
  cases a with
  | mk ax ay az =>
    cases b with
    | mk b1 b2 b3 =>
      show Vec3.mk (ax - (ax - b1)) (ay - (ay - b2)) (az - (az - b3)) =
        Vec3.mk b1 b2 b3
      rw [Vec3.mk.injEq]
      refine ⟨by ring, by ring, by ring⟩

/-!  Helper lemmas: pass sequencing and trace extractors. -/

theorem passSeq_fst (r1 r2 : Bool × List RenderOp) :
    (passSeq r1 r2).1 = (r1.1 && r2.1) := by
  unfold passSeq
  by_cases h : r1.1 = true <;> simp [h]

theorem passSeq_ops_of_true {r1 r2 : Bool × List RenderOp} (h : r1.1 = true) :
    (passSeq r1 r2).2 = r1.2 ++ r2.2 := by
  unfold passSeq
  simp [h]

theorem passSeq_mem {r1 r2 : Bool × List RenderOp} {op : RenderOp}
    (h : op ∈ (passSeq r1 r2).2) : op ∈ r1.2 ∨ op ∈ r2.2 := by
  unfold passSeq at h
  by_cases h1 : r1.1 = true
  · simp [h1] at h
    exact h
  · simp [h1] at h
    exact Or.inl h

theorem blurWrites_append (l1 l2 : List RenderOp) :
    blurWrites (l1 ++ l2) = blurWrites l1 ++ blurWrites l2 :=
  List.filterMap_append l1 l2 _

theorem compositeReads_append (l1 l2 : List RenderOp) :
    compositeReads (l1 ++ l2) = compositeReads l1 ++ compositeReads l2 :=
  List.filterMap_append l1 l2 _

theorem depthDraws_append (l1 l2 : List RenderOp) :
    depthDraws (l1 ++ l2) = depthDraws l1 ++ depthDraws l2 :=
  List.filter_append l1 l2

theorem blurWrites_eq_nil {l : List RenderOp}
    (h : ∀ op ∈ l, opClass op ≠ 3) : blurWrites l = [] := by
  rw [blurWrites, List.filterMap_eq_nil_iff]
  intro op hop
  have h2 := h op hop
  cases op <;> simp_all [opClass]

theorem compositeReads_eq_nil {l : List RenderOp}
    (h : ∀ op ∈ l, opClass op ≠ 5) : compositeReads l = [] := by
  rw [compositeReads, List.filterMap_eq_nil_iff]
  intro op hop
  have h2 := h op hop
  cases op <;> simp_all [opClass]

theorem depthDraws_eq_nil {l : List RenderOp}
    (h : ∀ op ∈ l, opClass op ≠ 1) : depthDraws l = [] := by
  rw [depthDraws, List.filter_eq_nil_iff]
  intro op hop
  have h2 := h op hop
  cases op <;> simp_all [opClass]

/-!  Helper lemmas: which op kinds each pass can emit. -/

theorem depthDrawRegulars_opClass (env : GlEnv) (l : List RegularObject) :
    ∀ op ∈ (depthDrawRegulars env l).2, opClass op = 1 := by
  induction l with
  | nil => intro op hop; simp [depthDrawRegulars] at hop
  | cons o rest ih =>
    intro op hop
    rw [depthDrawRegulars] at hop
    by_cases h : env .depth .u_model = true
    · simp [h] at hop
      rcases hop with rfl | hop
      · rfl
      · exact ih op hop
    · simp [h] at hop

theorem shadowDraws_opClass (env : GlEnv) (regs : List RegularObject)
    (terr : Option Terrain) :
    ∀ op ∈ (shadowDraws env regs terr).2, opClass op = 1 := by
  intro op hop
  rw [shadowDraws] at hop
  by_cases h1 : env .depth .u_light_view_projection = true
  · simp only [h1, if_true] at hop
    by_cases h2 : (depthDrawRegulars env regs).1 = true
    · simp only [h2, if_true] at hop
      cases terr with
      | none => exact depthDrawRegulars_opClass env regs op hop
      | some t =>
        by_cases h3 : env .depth .u_model = true
        · simp only [h3, if_true] at hop
          rcases List.mem_append.mp hop with hop | hop
          · exact depthDrawRegulars_opClass env regs op hop
          · simp at hop
            subst hop
            rfl
        · simp only [h3] at hop
          simp at hop
          exact depthDrawRegulars_opClass env regs op hop
    · simp only [Bool.not_eq_true] at h2
      simp only [h2] at hop
      simp at hop
      exact depthDrawRegulars_opClass env regs op hop
  · simp only [Bool.not_eq_true] at h1
    simp only [h1] at hop
    simp at hop

theorem shadowPass_opClass (env : GlEnv) (dl : DirectionalLightObject)
    (regs : List RegularObject) (terr : Option Terrain) (P D : Vec3) :
    ∀ op ∈ (shadowPass env dl regs terr P D).2,
      opClass op = 0 ∨ opClass op = 1 := by
  intro op hop
  rw [shadowPass] at hop
  by_cases hc : dl.color = Vec3.zero
  · simp [hc] at hop
    subst hop
    exact Or.inl rfl
  · simp [hc] at hop
    rcases hop with rfl | hop
    · exact Or.inl rfl
    · exact Or.inr (shadowDraws_opClass env regs terr op hop)

theorem debugDraws_opClass (env : GlEnv) (l : List DebugObject) :
    ∀ op ∈ (debugDraws env l).2, opClass op = 2 := by
  induction l with
  | nil => intro op hop; simp [debugDraws] at hop
  | cons o rest ih =>
    intro op hop
    rw [debugDraws] at hop
    by_cases h1 : env .debug .u_model = true
    · by_cases h2 : env .debug .u_color = true
      · simp [h1, h2] at hop
        rcases hop with rfl | hop
        · rfl
        · exact ih op hop
      · simp [h1, h2] at hop
    · simp [h1] at hop

theorem debugPass_opClass (env : GlEnv) (l : List DebugObject) :
    ∀ op ∈ (debugPass env l).2, opClass op = 2 := by
  intro op hop
  rw [debugPass] at hop
  by_cases h0 : l.isEmpty
  · simp [h0] at hop
  · by_cases h1 : env .debug .u_view = true
    · simp [h0, h1] at hop
      exact debugDraws_opClass env l op hop
    · simp [h0, h1] at hop

theorem regularDraws_opClass (env : GlEnv) (l : List RegularObject) :
    ∀ op ∈ (regularDraws env l).2, opClass op = 2 := by
  induction l with
  | nil => intro op hop; simp [regularDraws] at hop
  | cons o rest ih =>
    intro op hop
    rw [regularDraws] at hop
    by_cases h : env .regular_object .u_model = true
    · simp [h] at hop
      rcases hop with rfl | hop
      · rfl
      · exact ih op hop
    · simp [h] at hop

theorem regularPass_opClass (env : GlEnv) (l : List RegularObject) :
    ∀ op ∈ (regularPass env l).2, opClass op = 2 := by
  intro op hop
  rw [regularPass] at hop
  split at hop
  · exact regularDraws_opClass env l op hop
  · simp at hop

theorem terrainPass_opClass (env : GlEnv) (terr : Option Terrain) :
    ∀ op ∈ (terrainPass env terr).2, opClass op = 2 := by
  intro op hop
  cases terr with
  | none => simp [terrainPass] at hop
  | some t =>
    rw [terrainPass] at hop
    split at hop
    · simp at hop
      subst hop
      rfl
    · simp at hop

theorem pointLightDraws_opClass (env : GlEnv) (l : List PointLightObject) :
    ∀ op ∈ (pointLightDraws env l).2, opClass op = 2 := by
  induction l with
  | nil => intro op hop; simp [pointLightDraws] at hop
  | cons o rest ih =>
    intro op hop
    rw [pointLightDraws] at hop
    by_cases h : env .point_light .u_model = true
    · simp [h] at hop
      rcases hop with rfl | hop
      · rfl
      · exact ih op hop
    · simp [h] at hop

theorem pointLightPass_opClass (env : GlEnv) (l : List PointLightObject) :
    ∀ op ∈ (pointLightPass env l).2, opClass op = 2 := by
  intro op hop
  rw [pointLightPass] at hop
  split at hop
  · exact pointLightDraws_opClass env l op hop
  · simp at hop

theorem skyboxPass_opClass (env : GlEnv) :
    ∀ op ∈ (skyboxPass env).2, opClass op = 2 := by
  intro op hop
  rw [skyboxPass] at hop
  split at hop
  · split at hop
    · simp at hop
      subst hop
      rfl
    · simp at hop
  · simp at hop

theorem blurLoop_opClass (env : GlEnv) (n : Nat) :
    ∀ (h : Nat) (f : Bool), ∀ op ∈ (blurLoop env n h f).2.2,
      opClass op = 3 ∨ opClass op = 4 := by
  induction n with
  | zero => intro h f op hop; simp [blurLoop] at hop
  | succ n ih =>
    intro h f op hop
    rw [blurLoop] at hop
    by_cases hb : env .gaussian_blur .u_horizontal = true
    · simp only [hb, if_true] at hop
      simp only [List.mem_cons] at hop
      rcases hop with rfl | rfl | rfl | hop
      · exact Or.inl rfl
      · by_cases hf : f = true <;> simp [hf] <;> simp [opClass]
      · exact Or.inr rfl
      · exact ih (1 ^^^ h) false op hop
    · simp [hb] at hop
      subst hop
      exact Or.inl rfl

theorem compositePass_opClass (h : Nat) :
    ∀ op ∈ (compositePass h).2, opClass op = 5 ∨ opClass op = 6 := by
  intro op hop
  simp [compositePass] at hop
  rcases hop with rfl | rfl
  · exact Or.inl rfl
  · exact Or.inr rfl

/-!  Helper lemmas: the blur loop. -/

theorem blurLoop_false (env : GlEnv)
    (hb : env .gaussian_blur .u_horizontal = false) (n h : Nat) (f : Bool)
    (hn : n ≠ 0) : (blurLoop env n h f).1 = false := by
  cases n with
  | zero => exact absurd rfl hn
  | succ n =>
    rw [blurLoop]
    simp [hb]

theorem blurPass_true_env {env : GlEnv} (h : (blurPass env).1 = true) :
    env .gaussian_blur .u_horizontal = true := by
  by_cases hb : env .gaussian_blur .u_horizontal = true
  · exact hb
  · rw [Bool.not_eq_true] at hb
    rw [blurPass, passes] at h
    rw [blurLoop_false env hb 10 1 true (by decide)] at h
    exact absurd h (by decide)

theorem blurLoop_spec (env : GlEnv)
    (hb : env .gaussian_blur .u_horizontal = true) :
    ∀ (n h : Nat) (f : Bool),
      (blurLoop env n h f).1 = true ∧
      (blurLoop env n h f).2.1 = (if n % 2 = 0 then h else 1 ^^^ h) ∧
      blurWrites (blurLoop env n h f).2.2 =
        (List.range n).map (fun i => if i % 2 = 0 then h else 1 ^^^ h) := by
  intro n
  induction n with
  | zero => intro h f; simp [blurLoop, blurWrites]
  | succ n ih =>
    intro h f
    rw [blurLoop]
    simp only [hb, if_true]
    obtain ⟨ih1, ih2, ih3⟩ := ih (1 ^^^ h) false
    have hxx : 1 ^^^ (1 ^^^ h) = h := by
      rw [← Nat.xor_assoc, Nat.xor_self, Nat.zero_xor]
    refine ⟨ih1, ?_, ?_⟩
    · rw [ih2]
      by_cases hp : n % 2 = 0
      · have hp2 : (n + 1) % 2 = 1 := by omega
        simp [hp, hp2]
      · have hp2 : (n + 1) % 2 = 0 := by omega
        simp [hp, hp2, hxx]
    · have hhead : blurWrites
          (.blurBindWrite h ::
            (if f then RenderOp.blurReadBloom else .blurReadPingPong (1 ^^^ h)) ::
              .blurDrawQuad :: (blurLoop env n (1 ^^^ h) false).2.2) =
          h :: blurWrites (blurLoop env n (1 ^^^ h) false).2.2 := by
        by_cases hf : f = true <;> simp [hf, blurWrites]
      rw [hhead, ih3, List.range_succ_eq_map, List.map_cons, List.map_map]
      simp only [Nat.zero_mod, if_true]
      refine congrArg (h :: ·) ?_
      refine List.map_congr_left ?_
      intro i _
      simp only [Function.comp]
      by_cases hp : i % 2 = 0
      · have hp2 : (i + 1) % 2 = 1 := by omega
        simp [hp, hp2]
      · have hp2 : (i + 1) % 2 = 0 := by omega
        simp [hp, hp2, hxx]

theorem blurPass_spec (env : GlEnv)
    (hb : env .gaussian_blur .u_horizontal = true) :
    (blurPass env).2.1 = 1 ∧
    blurWrites (blurPass env).2.2 =
      (List.range 10).map (fun i => if i % 2 = 0 then 1 else 0) := by
  obtain ⟨-, h2, h3⟩ := blurLoop_spec env hb passes 1 true
  rw [passes] at h2 h3
  constructor
  · rw [blurPass, passes, h2]
    decide
  · rw [blurPass, passes, h3]
    refine List.map_congr_left ?_
    intro i _
    by_cases hp : i % 2 = 0 <;> simp [hp]

/-!  Helper lemmas: structure of `Renderer.render` results. -/

theorem passSeq_ops_head {r1 r2 : Bool × List RenderOp} {op : RenderOp}
    {l : List RenderOp} (h : r1.2 = op :: l) :
    (passSeq r1 r2).2.head? = some op := by
  unfold passSeq
  by_cases h1 : r1.1 = true <;> simp [h1, h]

theorem renderPasses_true_parts {s : Renderer} {env : GlEnv}
    {dl : DirectionalLightObject} {P D : Vec3}
    (h : (renderPasses s env dl P D).1 = true) :
    (shadowPass env dl s.regular_objects s.terrain P D).1 = true ∧
    (blurPass env).1 = true ∧
    (renderPasses s env dl P D).2 =
      (shadowPass env dl s.regular_objects s.terrain P D).2 ++
      ((debugPass env s.debug_objects).2 ++
       ((regularPass env s.regular_objects).2 ++
        ((terrainPass env s.terrain).2 ++
         ((pointLightPass env s.point_light_objects).2 ++
          ((skyboxPass env).2 ++
           ((blurPass env).2.2 ++ (compositePass (blurPass env).2.1).2)))))) := by
  rw [renderPasses] at h
  simp only [passSeq_fst, Bool.and_eq_true] at h
  obtain ⟨h1, h2, h3, h4, h5, h6, h7, -⟩ := h
  refine ⟨h1, h7, ?_⟩
  rw [renderPasses]
  rw [passSeq_ops_of_true h1, passSeq_ops_of_true h2, passSeq_ops_of_true h3,
    passSeq_ops_of_true h4, passSeq_ops_of_true h5, passSeq_ops_of_true h6,
    passSeq_ops_of_true h7]

theorem render_ops_eq {s : Renderer} {env : GlEnv} {P D : Vec3}
    {dl : DirectionalLightObject}
    (hdl : s.directional_light_objects = [dl])
    (hp : s.point_light_objects.length = 1) :
    (Renderer.render s env P D).2.2 = (renderPasses s env dl P D).2 := by
  obtain ⟨e, g, sh, ro, plo, dlo, dbo, te⟩ := s
  have hdl2 : dlo = [dl] := hdl
  subst hdl2
  have hp2 : plo.length = 1 := hp
  simp only [Renderer.render, hp2, if_true]
  by_cases hr :
      (renderPasses ⟨e, g, sh, ro, plo, [dl], dbo, te⟩ env dl P D).1 = true <;>
    simp [hr]

theorem render_true_parts {s : Renderer} {env : GlEnv} {P D : Vec3}
    (h : (Renderer.render s env P D).1 = true) :
    ∃ dl, s.directional_light_objects = [dl] ∧
      s.point_light_objects.length = 1 ∧
      (renderPasses s env dl P D).1 = true ∧
      (Renderer.render s env P D).2.2 = (renderPasses s env dl P D).2 := by
  obtain ⟨e, g, sh, ro, plo, dlo, dbo, te⟩ := s
  rcases dlo with - | ⟨dl, - | ⟨d2, rest⟩⟩
  · simp [Renderer.render] at h
  · by_cases hp : plo.length = 1
    · by_cases hr :
          (renderPasses ⟨e, g, sh, ro, plo, [dl], dbo, te⟩ env dl P D).1 = true
      · exact ⟨dl, rfl, hp, hr, render_ops_eq rfl hp⟩
      · rw [Bool.not_eq_true] at hr
        simp [Renderer.render, hp, hr] at h
    · simp [Renderer.render, hp] at h
  · simp [Renderer.render] at h

theorem shadowPass_ops_nonzero {env : GlEnv} {dl : DirectionalLightObject}
    (regs : List RegularObject) (terr : Option Terrain) (P D : Vec3)
    (hc : dl.color ≠ Vec3.zero) :
    (shadowPass env dl regs terr P D).2 =
      .setLightMatrix (.viewProjection
        (light_position (light_target P D) dl.direction) (light_target P D)) ::
      (shadowDraws env regs terr).2 := by
  rw [shadowPass]
  simp [hc]

theorem shadowPass_ops_zero {env : GlEnv} {dl : DirectionalLightObject}
    (regs : List RegularObject) (terr : Option Terrain) (P D : Vec3)
    (hc : dl.color = Vec3.zero) :
    shadowPass env dl regs terr P D = (true, [.setLightMatrix .identity]) := by
  rw [shadowPass]
  simp [hc]

/-- Blur-write and composite-read trace facts of every successful `render`
call: the write targets are the fixed ping-pong sequence 1,0,1,0,... of the
ten passes, and the composite pass reads the ping-pong texture at index 1. -/
theorem render_true_blur_composite {s : Renderer} {env : GlEnv} {P D : Vec3}
    (h : (Renderer.render s env P D).1 = true) :
    blurWrites (Renderer.render s env P D).2.2 =
      (List.range 10).map (fun i => if i % 2 = 0 then 1 else 0) ∧
    compositeReads (Renderer.render s env P D).2.2 = [1] := by
  obtain ⟨dl, hdl, hp, hr, hops⟩ := render_true_parts h
  obtain ⟨-, hbl, hdecomp⟩ := renderPasses_true_parts hr
  have hb := blurPass_true_env hbl
  obtain ⟨hflag, hwr⟩ := blurPass_spec env hb
  have nsh3 : blurWrites (shadowPass env dl s.regular_objects s.terrain P D).2 = [] :=
    blurWrites_eq_nil fun op hop => by
      rcases shadowPass_opClass env dl s.regular_objects s.terrain P D op hop
        with h0 | h0 <;> omega
  have nsh5 : compositeReads
      (shadowPass env dl s.regular_objects s.terrain P D).2 = [] :=
    compositeReads_eq_nil fun op hop => by
      rcases shadowPass_opClass env dl s.regular_objects s.terrain P D op hop
        with h0 | h0 <;> omega
  have ndb3 : blurWrites (debugPass env s.debug_objects).2 = [] :=
    blurWrites_eq_nil fun op hop => by
      have h0 := debugPass_opClass env s.debug_objects op hop; omega
  have ndb5 : compositeReads (debugPass env s.debug_objects).2 = [] :=
    compositeReads_eq_nil fun op hop => by
      have h0 := debugPass_opClass env s.debug_objects op hop; omega
  have nrg3 : blurWrites (regularPass env s.regular_objects).2 = [] :=
    blurWrites_eq_nil fun op hop => by
      have h0 := regularPass_opClass env s.regular_objects op hop; omega
  have nrg5 : compositeReads (regularPass env s.regular_objects).2 = [] :=
    compositeReads_eq_nil fun op hop => by
      have h0 := regularPass_opClass env s.regular_objects op hop; omega
  have ntr3 : blurWrites (terrainPass env s.terrain).2 = [] :=
    blurWrites_eq_nil fun op hop => by
      have h0 := terrainPass_opClass env s.terrain op hop; omega
  have ntr5 : compositeReads (terrainPass env s.terrain).2 = [] :=
    compositeReads_eq_nil fun op hop => by
      have h0 := terrainPass_opClass env s.terrain op hop; omega
  have npl3 : blurWrites (pointLightPass env s.point_light_objects).2 = [] :=
    blurWrites_eq_nil fun op hop => by
      have h0 := pointLightPass_opClass env s.point_light_objects op hop; omega
  have npl5 : compositeReads (pointLightPass env s.point_light_objects).2 = [] :=
    compositeReads_eq_nil fun op hop => by
      have h0 := pointLightPass_opClass env s.point_light_objects op hop; omega
  have nsk3 : blurWrites (skyboxPass env).2 = [] :=
    blurWrites_eq_nil fun op hop => by
      have h0 := skyboxPass_opClass env op hop; omega
  have nsk5 : compositeReads (skyboxPass env).2 = [] :=
    compositeReads_eq_nil fun op hop => by
      have h0 := skyboxPass_opClass env op hop; omega
  have nbl5 : compositeReads (blurPass env).2.2 = [] :=
    compositeReads_eq_nil fun op hop => by
      rcases blurLoop_opClass env passes 1 true op hop with h0 | h0 <;> omega
  have ncp3 : blurWrites (compositePass (blurPass env).2.1).2 = [] :=
    blurWrites_eq_nil fun op hop => by
      rcases compositePass_opClass (blurPass env).2.1 op hop with h0 | h0 <;> omega
  rw [hops, hdecomp]
  constructor
  · simp only [blurWrites_append, nsh3, ndb3, nrg3, ntr3, npl3, nsk3, ncp3, hwr,
      List.nil_append, List.append_nil]
  · simp only [compositeReads_append, nsh5, ndb5, nrg5, ntr5, npl5, nsk5, nbl5,
      hflag, List.nil_append, List.append_nil]
    rfl

/-!  Claim theorems. -/

/-- C1: for every renderer state, if the number of submitted directional-light
objects is not exactly 1 or the number of submitted point-light objects is not
exactly 1, then `render` returns false. -/
theorem render_requires_exactly_one_of_each_light (s : Renderer) (env : GlEnv)
    (P D : Vec3)
    (h : s.directional_light_objects.length ≠ 1 ∨
      s.point_light_objects.length ≠ 1) :
    (Renderer.render s env P D).1 = false := by
  obtain ⟨e, g, sh, ro, plo, dlo, dbo, te⟩ := s
  rcases dlo with - | ⟨dl, - | ⟨d2, rest⟩⟩
  · simp [Renderer.render]
  · have hp : ¬ plo.length = 1 := by
      rcases h with h | h
      · exact absurd rfl h
      · exact h
    simp [Renderer.render, hp]
  · simp [Renderer.render]

/-- Witness for C1 at a concrete input: no lights submitted. -/
theorem render_requires_exactly_one_of_each_light_witness :
    (Renderer.render staleState envAll Vec3.zero Vec3.zero).1 = false :=
  render_requires_exactly_one_of_each_light staleState envAll Vec3.zero Vec3.zero
    (Or.inl (by decide))

/-- C2 (counterexample): at a concrete state with a queued regular object and
no lights, `render` returns false and its failure path leaves the
regular-object queue non-empty - the claim that every exit path clears the
queues is false of the code. -/
theorem render_failure_path_leaves_queues_uncleared :
    (Renderer.render staleState envAll Vec3.zero Vec3.zero).1 = false ∧
    (Renderer.render staleState envAll Vec3.zero Vec3.zero).2.1.regular_objects
      ≠ [] := by
  decide

/-- C2 (amended): the four submission queues are cleared exactly on the
success path of `render`; on every failure path the whole renderer state -
queues included - is returned unchanged. -/
theorem render_clears_queues_only_on_success (s : Renderer) (env : GlEnv)
    (P D : Vec3) :
    ((Renderer.render s env P D).1 = true →
      (Renderer.render s env P D).2.1.regular_objects = [] ∧
      (Renderer.render s env P D).2.1.point_light_objects = [] ∧
      (Renderer.render s env P D).2.1.directional_light_objects = [] ∧
      (Renderer.render s env P D).2.1.debug_objects = []) ∧
    ((Renderer.render s env P D).1 = false →
      (Renderer.render s env P D).2.1 = s) := by
  obtain ⟨e, g, sh, ro, plo, dlo, dbo, te⟩ := s
  rcases dlo with - | ⟨dl, - | ⟨d2, rest⟩⟩
  · simp [Renderer.render]
  · by_cases hp : plo.length = 1
    · by_cases hr :
          (renderPasses ⟨e, g, sh, ro, plo, [dl], dbo, te⟩ env dl P D).1 = true
      · simp [Renderer.render, hp, hr]
      · rw [Bool.not_eq_true] at hr
        simp [Renderer.render, hp, hr]
    · simp [Renderer.render, hp]
  · simp [Renderer.render]

/-- Witness for C2 (amended) at a concrete input: a failing call returns the
state unchanged. -/
theorem render_clears_queues_only_on_success_witness :
    (Renderer.render staleState envAll Vec3.zero Vec3.zero).2.1 = staleState :=
  (render_clears_queues_only_on_success staleState envAll Vec3.zero Vec3.zero).2
    (by decide)

/-- C3 (counterexample): on a concrete successful `render` call, the final
(10th) blur pass writes the ping-pong target 0 while the composite pass reads
the target indexed by the loop-exit flag, 1 - so the composite pass does not
read the last-written ping-pong target. -/
theorem composite_does_not_read_last_written_ping_pong :
    (blurWrites
      (Renderer.render sampleState envAll Vec3.zero Vec3.zero).2.2).getLast? =
        some 0 ∧
    compositeReads
      (Renderer.render sampleState envAll Vec3.zero Vec3.zero).2.2 = [1] ∧
    (blurWrites
      (Renderer.render sampleState envAll Vec3.zero Vec3.zero).2.2).getLast? ≠
    (compositeReads
      (Renderer.render sampleState envAll Vec3.zero Vec3.zero).2.2).head? := by
  decide

/-- C3 (amended): in the bloom blur loop of every successful `render` call,
the final (10th) blur pass writes the ping-pong target indexed by the negation
of the loop-exit flag (target 0), while the composite pass reads the target
indexed by the loop-exit flag (target 1), i.e. the one last written by the 9th
pass; the composite pass therefore does not read the last-written target. -/
theorem final_blur_write_opposite_of_composite_read (s : Renderer)
    (env : GlEnv) (P D : Vec3) (h : (Renderer.render s env P D).1 = true) :
    (blurWrites (Renderer.render s env P D).2.2).getLast? = some 0 ∧
    compositeReads (Renderer.render s env P D).2.2 = [1] := by
  obtain ⟨h1, h2⟩ := render_true_blur_composite h
  refine ⟨?_, h2⟩
  rw [h1]
  decide

/-- Witness for C3 (amended) at a concrete successful call. -/
theorem final_blur_write_opposite_of_composite_read_witness :
    (blurWrites
      (Renderer.render sampleState envAll ⟨1, 2, 3⟩ ⟨4, 5, 6⟩).2.2).getLast? =
        some 0 ∧
    compositeReads
      (Renderer.render sampleState envAll ⟨1, 2, 3⟩ ⟨4, 5, 6⟩).2.2 = [1] :=
  final_blur_write_opposite_of_composite_read sampleState envAll ⟨1, 2, 3⟩
    ⟨4, 5, 6⟩ (by decide)

/-- C4: for the fixed even pass count of 10 with the flag starting at 1, on
every successful `render` call the composite pass reads the ping-pong target
indexed by the flag value at loop exit, which equals the starting flag value
1. -/
theorem composite_read_index_equals_start_flag (s : Renderer) (env : GlEnv)
    (P D : Vec3) (h : (Renderer.render s env P D).1 = true) :
    compositeReads (Renderer.render s env P D).2.2 = [1] :=
  (render_true_blur_composite h).2

/-- Witness for C4 at a concrete successful call. -/
theorem composite_read_index_equals_start_flag_witness :
    compositeReads
      (Renderer.render sampleState envAll Vec3.zero ⟨1, 0, 0⟩).2.2 = [1] :=
  composite_read_index_equals_start_flag sampleState envAll Vec3.zero ⟨1, 0, 0⟩
    (by decide)

/-- C5: for any camera position `P` and direction `D` passed to `render` with
a nonzero-color directional light, the first trace op records the light-space
matrix built from `light_target = P + D * R` and
`light_position = light_target - L * R2`, where the target lies at distance
exactly `R = 75` (half the frustum depth of 150) along `D` from `P` and the
light position lies at distance exactly `R2 = 75` from the target along the
negated light direction. -/
theorem shadow_target_and_light_position_distances (s : Renderer) (env : GlEnv)
    (P D : Vec3) (dl : DirectionalLightObject)
    (hdl : s.directional_light_objects = [dl])
    (hp : s.point_light_objects.length = 1)
    (hc : dl.color ≠ Vec3.zero) :
    (Renderer.render s env P D).2.2.head? =
      some (.setLightMatrix (.viewProjection
        (light_position (light_target P D) dl.direction)
        (light_target P D))) ∧
    light_target P D - P = D.scale shadow_render_distance_from_camera ∧
    light_target P D - light_position (light_target P D) dl.direction =
      dl.direction.scale shadow_render_distance_from_light ∧
    shadow_render_distance_from_camera = 75 ∧
    shadow_render_distance_from_light = 75 ∧
    shadow_frustrum_end = 150 := by
  refine ⟨?_, ?_, ?_, ?_, ?_, rfl⟩
  · rw [render_ops_eq hdl hp, renderPasses]
    exact passSeq_ops_head (shadowPass_ops_nonzero s.regular_objects s.terrain
      P D hc)
  · rw [light_target]
    exact Vec3.add_sub_cancel_left P (D.scale shadow_render_distance_from_camera)
  · rw [light_position]
    exact Vec3.sub_sub_cancel (light_target P D)
      (dl.direction.scale shadow_render_distance_from_light)
  · rw [shadow_render_distance_from_camera, shadow_frustrum_end]
    norm_num
  · rw [shadow_render_distance_from_light, shadow_frustrum_end]
    norm_num

/-- Witness for C5 at a concrete input. -/
theorem shadow_target_and_light_position_distances_witness :
    (Renderer.render sampleState envAll Vec3.zero ⟨0, 0, 1⟩).2.2.head? =
      some (.setLightMatrix (.viewProjection
        (light_position (light_target Vec3.zero ⟨0, 0, 1⟩)
          sampleDirLight.direction)
        (light_target Vec3.zero ⟨0, 0, 1⟩))) ∧
    light_target Vec3.zero ⟨0, 0, 1⟩ - Vec3.zero =
      Vec3.scale ⟨0, 0, 1⟩ shadow_render_distance_from_camera ∧
    light_target Vec3.zero ⟨0, 0, 1⟩ -
      light_position (light_target Vec3.zero ⟨0, 0, 1⟩)
        sampleDirLight.direction =
      Vec3.scale sampleDirLight.direction shadow_render_distance_from_light ∧
    shadow_render_distance_from_camera = 75 ∧
    shadow_render_distance_from_light = 75 ∧
    shadow_frustrum_end = 150 :=
  shadow_target_and_light_position_distances sampleState envAll Vec3.zero
    ⟨0, 0, 1⟩ sampleDirLight (by decide) (by decide) (by decide)

/-- C6: for every value `x`, `set_exposure x` followed by `get_exposure`
returns exactly `x`, and likewise for gamma and sharpness. -/
theorem tone_parameters_round_trip (s : Renderer) (env : GlEnv) (x : ℚ) :
    (s.set_exposure env x).2.get_exposure = x ∧
    (s.set_gamma env x).2.get_gamma = x ∧
    (s.set_sharpness env x).2.get_sharpness = x :=
  ⟨rfl, rfl, rfl⟩

/-- C7: after any `render` call that returns true, the four submission queues
are empty and the terrain entry is exactly what it was before the call. -/
theorem successful_render_clears_queues_preserves_terrain (s : Renderer)
    (env : GlEnv) (P D : Vec3) (h : (Renderer.render s env P D).1 = true) :
    (Renderer.render s env P D).2.1.regular_objects = [] ∧
    (Renderer.render s env P D).2.1.point_light_objects = [] ∧
    (Renderer.render s env P D).2.1.directional_light_objects = [] ∧
    (Renderer.render s env P D).2.1.debug_objects = [] ∧
    (Renderer.render s env P D).2.1.terrain = s.terrain := by
  obtain ⟨e, g, sh, ro, plo, dlo, dbo, te⟩ := s
  rcases dlo with - | ⟨dl, - | ⟨d2, rest⟩⟩
  · simp [Renderer.render] at h
  · by_cases hp : plo.length = 1
    · by_cases hr :
          (renderPasses ⟨e, g, sh, ro, plo, [dl], dbo, te⟩ env dl P D).1 = true
      · simp [Renderer.render, hp, hr]
      · rw [Bool.not_eq_true] at hr
        simp [Renderer.render, hp, hr] at h
    · simp [Renderer.render, hp] at h
  · simp [Renderer.render] at h

/-- Witness for C7 at a concrete successful call. -/
theorem successful_render_clears_queues_preserves_terrain_witness :
    (Renderer.render sampleState envAll Vec3.zero Vec3.zero).2.1.regular_objects
      = [] ∧
    (Renderer.render sampleState envAll Vec3.zero
      Vec3.zero).2.1.point_light_objects = [] ∧
    (Renderer.render sampleState envAll Vec3.zero
      Vec3.zero).2.1.directional_light_objects = [] ∧
    (Renderer.render sampleState envAll Vec3.zero Vec3.zero).2.1.debug_objects
      = [] ∧
    (Renderer.render sampleState envAll Vec3.zero Vec3.zero).2.1.terrain =
      sampleState.terrain :=
  successful_render_clears_queues_preserves_terrain sampleState envAll
    Vec3.zero Vec3.zero (by decide)

/-- C8: if the single submitted directional light's color is `(0, 0, 0)`,
`render` records the identity as the light-space matrix and its trace contains
no depth draws of regular objects or terrain, whatever else happens. -/
theorem zero_color_directional_light_skips_shadow_pass (s : Renderer)
    (env : GlEnv) (P D : Vec3) (dl : DirectionalLightObject)
    (hdl : s.directional_light_objects = [dl])
    (hp : s.point_light_objects.length = 1)
    (hc : dl.color = Vec3.zero) :
    (Renderer.render s env P D).2.2.head? =
      some (.setLightMatrix .identity) ∧
    depthDraws (Renderer.render s env P D).2.2 = [] := by
  rw [render_ops_eq hdl hp]
  have hsh : (shadowPass env dl s.regular_objects s.terrain P D).2 =
      [.setLightMatrix .identity] := by
    rw [shadowPass_ops_zero s.regular_objects s.terrain P D hc]
  constructor
  · rw [renderPasses]
    exact passSeq_ops_head hsh
  · refine depthDraws_eq_nil ?_
    intro op hop
    rw [renderPasses] at hop
    rcases passSeq_mem hop with h1 | hop
    · rw [hsh] at h1
      simp at h1
      subst h1
      simp [opClass]
    rcases passSeq_mem hop with h1 | hop
    · have h0 := debugPass_opClass env s.debug_objects op h1
      omega
    rcases passSeq_mem hop with h1 | hop
    · have h0 := regularPass_opClass env s.regular_objects op h1
      omega
    rcases passSeq_mem hop with h1 | hop
    · have h0 := terrainPass_opClass env s.terrain op h1
      omega
    rcases passSeq_mem hop with h1 | hop
    · have h0 := pointLightPass_opClass env s.point_light_objects op h1
      omega
    rcases passSeq_mem hop with h1 | hop
    · have h0 := skyboxPass_opClass env op h1
      omega
    rcases passSeq_mem hop with h1 | h1
    · have h0 := blurLoop_opClass env passes 1 true op h1
      omega
    · rcases compositePass_opClass (blurPass env).2.1 op h1 with h0 | h0 <;>
        omega

/-- Witness for C8 at a concrete input with the light off. -/
theorem zero_color_directional_light_skips_shadow_pass_witness :
    (Renderer.render offLightState envAll Vec3.zero Vec3.zero).2.2.head? =
      some (.setLightMatrix .identity) ∧
    depthDraws (Renderer.render offLightState envAll Vec3.zero Vec3.zero).2.2
      = [] :=
  zero_color_directional_light_skips_shadow_pass offLightState envAll
    Vec3.zero Vec3.zero dirLightOff (by decide) (by decide) (by decide)

/-- C9: `set_terrain` is atomic on error - when any uniform-setting step
fails it returns false with the stored state (terrain entry included)
unchanged, and only when every step succeeds is the terrain entry replaced. -/
theorem set_terrain_atomic_on_error (s : Renderer) (env : GlEnv) (t : Terrain) :
    ((s.set_terrain env t).1 = false → (s.set_terrain env t).2 = s) ∧
    ((s.set_terrain env t).1 = true →
      (s.set_terrain env t).2 = { s with terrain := some t }) := by
  rw [Renderer.set_terrain]
  by_cases h1 : t.material.apply .terrain env = true
  · by_cases h2 : env .terrain .u_normal_map_sampler = true
    · by_cases h3 : env .terrain .u_shadow_map_sampler = true
      · simp [h1, h2, h3]
      · simp [h1, h2, h3]
    · simp [h1, h2]
  · simp [h1]

/-- Witness for C9 at concrete inputs: one failing and one succeeding call. -/
theorem set_terrain_atomic_on_error_witness :
    (Renderer.initial.set_terrain (envFailAt .terrain .u_shadow_map_sampler)
      sampleTerrain).2 = Renderer.initial ∧
    (Renderer.initial.set_terrain envAll sampleTerrain).2 =
      { Renderer.initial with terrain := some sampleTerrain } :=
  ⟨(set_terrain_atomic_on_error Renderer.initial
      (envFailAt .terrain .u_shadow_map_sampler) sampleTerrain).1 (by decide),
   (set_terrain_atomic_on_error Renderer.initial envAll sampleTerrain).2
      (by decide)⟩

/-- C10: `set_exposure`, `set_gamma` and `set_sharpness` store the new value
into the renderer's field before the fallible shader-uniform update, so even
when they return false the corresponding getter returns the new value. -/
theorem scalar_setters_store_before_fallible_update (s : Renderer)
    (env : GlEnv) (x : ℚ) :
    (env .screen .u_exposure = false →
      (s.set_exposure env x).1 = false ∧
      (s.set_exposure env x).2.get_exposure = x) ∧
    (env .screen .u_gamma = false →
      (s.set_gamma env x).1 = false ∧
      (s.set_gamma env x).2.get_gamma = x) ∧
    (env .screen .u_sharpness = false →
      (s.set_sharpness env x).1 = false ∧
      (s.set_sharpness env x).2.get_sharpness = x) :=
  ⟨fun h => ⟨h, rfl⟩, fun h => ⟨h, rfl⟩, fun h => ⟨h, rfl⟩⟩

/-- Witness for C10 at a concrete input where all three uniform updates
fail. -/
theorem scalar_setters_store_before_fallible_update_witness :
    ((Renderer.initial.set_exposure envScreenScalarsFail 7).1 = false ∧
      (Renderer.initial.set_exposure envScreenScalarsFail 7).2.get_exposure
        = 7) ∧
    ((Renderer.initial.set_gamma envScreenScalarsFail 7).1 = false ∧
      (Renderer.initial.set_gamma envScreenScalarsFail 7).2.get_gamma = 7) ∧
    ((Renderer.initial.set_sharpness envScreenScalarsFail 7).1 = false ∧
      (Renderer.initial.set_sharpness envScreenScalarsFail 7).2.get_sharpness
        = 7) :=
  ⟨(scalar_setters_store_before_fallible_update Renderer.initial
      envScreenScalarsFail 7).1 (by decide),
   (scalar_setters_store_before_fallible_update Renderer.initial
      envScreenScalarsFail 7).2.1 (by decide),
   (scalar_setters_store_before_fallible_update Renderer.initial
      envScreenScalarsFail 7).2.2 (by decide)⟩

end Engine
